import Mathlib

/-!
Verification of the mplDTs `Station` geometry module
(`src/mpldts/geometry/station.py`).

The development shallowly embeds the station construction logic:
the face-orientation sign, the three rotation/translation transforms
registered in the transform manager, the constructor validators, the
super-layer lookup, and the per-cell attribute ingestion loop.
Vectors are modelled over `ℚ` (the Python code uses floats; all the
constructions here involve only ring operations, so exact rationals
embed them faithfully).
-/

namespace MplDTs

/-- A 3-vector with rational coordinates, standing for a numpy array of
three floats. -/
structure Vec3 where
  x : ℚ
  y : ℚ
  z : ℚ
deriving DecidableEq, Repr

/-- Euclidean dot product of two 3-vectors. -/
def dot (a b : Vec3) : ℚ :=
  a.x * b.x + a.y * b.y + a.z * b.z

/-- Scalar multiplication of a 3-vector, standing for numpy broadcasting
`array * scalar`. -/
def smul (q : ℚ) (v : Vec3) : Vec3 :=
  ⟨q * v.x, q * v.y, q * v.z⟩

/-- Embedding of `pytransform3d.rotations.perpendicular_to_vectors`, which
returns the cross product `a × b` (the source comment at
`station.py:197` also describes it as the cross product). -/
def perpendicular_to_vectors (a b : Vec3) : Vec3 :=
  ⟨a.y * b.z - a.z * b.y, a.z * b.x - a.x * b.z, a.x * b.y - a.y * b.x⟩

/-- A 3×3 matrix stored by columns: the code builds
`array([ex, ey, ez]).T`, whose columns are `ex`, `ey`, `ez`. -/
structure Mat3 where
  ex : Vec3
  ey : Vec3
  ez : Vec3
deriving DecidableEq, Repr

/-- A rigid transform: a rotation matrix together with a translation
vector. -/
structure Transform3 where
  rotation : Mat3
  translation : Vec3
deriving DecidableEq, Repr

/-- Modelled from the spec: the `TransformManager` class
(`mpldts.geometry.transforms`) is not among the analysed sources. Per the
spec it holds a mapping from an ordered pair of frame names to a rigid
transform, and the translation defaults to zero when omitted in `add`. -/
structure TransformManager where
  base : String
  entries : List (String × String × Transform3)
deriving DecidableEq, Repr

/-- Modelled from the spec: a fresh manager with the given base frame and
no registered transforms. -/
def TransformManager.start (base : String) : TransformManager :=
  ⟨base, []⟩

/-- Modelled from the spec: registering a transform for the ordered pair
`(src, tgt)`; the translation vector defaults to zero when omitted. -/
def TransformManager.add (m : TransformManager) (src tgt : String)
    (rotation : Mat3) (translation : Option Vec3) : TransformManager :=
  ⟨m.base, m.entries ++ [(src, tgt, ⟨rotation, translation.getD ⟨0, 0, 0⟩⟩)]⟩

/-- Modelled from the spec: direct lookup of the transform registered for
the ordered pair `(src, tgt)`. -/
def TransformManager.getTransform (m : TransformManager) (src tgt : String) :
    Option Transform3 :=
  (m.entries.find? (fun e => e.1 == src && e.2.1 == tgt)).map (fun e => e.2.2)

/-- The face-orientation sign computed in `Station._setup_tranformer`
(`station.py:185-189`): `-1 if wheel < 0 else 1 if wheel > 0 else -1 if
sector in [1, 4, 5, 8, 9, 12, 13] else 1`. -/
def face_orientation (wheel sector : Int) : Int :=
  if wheel < 0 then -1
  else if wheel > 0 then 1
  else if sector ∈ ([1, 4, 5, 8, 9, 12, 13] : List Int) then -1
  else 1

/-- Embedding of `Station._setup_tranformer` (`station.py:175-228`): builds
the transform manager and registers the Station→CMS transform (rotation
plus translation) and the two natural-view transforms (rotation only).
`direction` is the station's `NormalVector` and `global_center` its
`GlobalPosition`, both supplied by the geometry source. -/
def setup_tranformer (wheel sector : Int) (direction global_center : Vec3) :
    TransformManager :=
  let transformer := TransformManager.start "Station"
  let fo : ℚ := (face_orientation wheel sector : Int)
  let CMSezSt := direction
  let CMSeySt := smul fo ⟨0, 0, 1⟩
  let CMSexSt := perpendicular_to_vectors CMSeySt CMSezSt
  let transformer :=
    transformer.add "Station" "CMS" ⟨CMSexSt, CMSeySt, CMSezSt⟩ (some global_center)
  let StNvezSt : Vec3 := ⟨0, 0, -1⟩
  let StNvPhieySt := smul fo ⟨0, -1, 0⟩
  let StNvPhiexSt := perpendicular_to_vectors StNvPhieySt StNvezSt
  let transformer :=
    transformer.add "Station" "StationNvPhi" ⟨StNvPhiexSt, StNvPhieySt, StNvezSt⟩ none
  let StNvEtaexSt := smul fo ⟨-1, 0, 0⟩
  let StNvEtaeySt := perpendicular_to_vectors StNvezSt StNvEtaexSt
  transformer.add "Station" "StationNvEta" ⟨StNvEtaexSt, StNvEtaeySt, StNvezSt⟩ none

/-- C1: for wheel in [-2,2] and sector in [1,14], the face-orientation sign
is -1 for negative wheels, +1 for positive wheels, and for wheel 0 it is -1
exactly when the sector lies in {1,4,5,8,9,12,13}; this same single sign
scales the y column of the registered CMS rotation, the y column of the
registered phi natural-view rotation and the x column of the registered
eta natural-view rotation. -/
theorem c1_face_orientation_sign (wheel sector : Int) (dir pos : Vec3)
    (hw1 : -2 ≤ wheel) (hw2 : wheel ≤ 2) (hs1 : 1 ≤ sector) (hs2 : sector ≤ 14) :
    (wheel < 0 → face_orientation wheel sector = -1) ∧
    (wheel > 0 → face_orientation wheel sector = 1) ∧
    (wheel = 0 →
      face_orientation wheel sector =
        (if sector ∈ ([1, 4, 5, 8, 9, 12, 13] : List Int) then -1 else 1)) ∧
    (∃ T, (setup_tranformer wheel sector dir pos).getTransform "Station" "CMS" = some T ∧
      T.rotation.ey = smul (face_orientation wheel sector : Int) ⟨0, 0, 1⟩) ∧
    (∃ T, (setup_tranformer wheel sector dir pos).getTransform "Station" "StationNvPhi"
        = some T ∧
      T.rotation.ey = smul (face_orientation wheel sector : Int) ⟨0, -1, 0⟩) ∧
    (∃ T, (setup_tranformer wheel sector dir pos).getTransform "Station" "StationNvEta"
        = some T ∧
      T.rotation.ex = smul (face_orientation wheel sector : Int) ⟨-1, 0, 0⟩) := by
  refine ⟨?_, ?_, ?_, ?_, ?_, ?_⟩
  · intro h
    simp [face_orientation, h]
  · intro h
    have h0 : ¬ wheel < 0 := by omega
    simp [face_orientation, h0, h]
  · intro h
    simp [face_orientation, h]
  · exact ⟨_, rfl, rfl⟩
  · exact ⟨_, rfl, rfl⟩
  · exact ⟨_, rfl, rfl⟩

/-- Witness for `c1_face_orientation_sign` at wheel 0, sector 4, a concrete
direction and position. -/
theorem c1_face_orientation_sign_witness :
    (-2 ≤ (0 : Int)) ∧ ((0 : Int) ≤ 2) ∧ (1 ≤ (4 : Int)) ∧ ((4 : Int) ≤ 14) ∧
    (((0 : Int) = 0) →
      face_orientation 0 4 =
        (if (4 : Int) ∈ ([1, 4, 5, 8, 9, 12, 13] : List Int) then -1 else 1)) :=
  ⟨by decide, by decide, by decide, by decide,
    (c1_face_orientation_sign 0 4 ⟨1, 0, 0⟩ ⟨0, 0, 0⟩
      (by decide) (by decide) (by decide) (by decide)).2.2.1⟩

/-- The cross product is perpendicular to its first argument. -/
lemma dot_perp_left (a b : Vec3) : dot (perpendicular_to_vectors a b) a = 0 := by
  simp only [dot, perpendicular_to_vectors]
  ring

/-- The cross product is perpendicular to its second argument. -/
lemma dot_perp_right (a b : Vec3) : dot (perpendicular_to_vectors a b) b = 0 := by
  simp only [dot, perpendicular_to_vectors]
  ring

/-- C2: the transform registered for (Station, CMS) has rotation columns
with `ez` the station's measured normal `direction`, `ey` the vertical
detector axis (0,0,1) scaled by the face-orientation sign, and `ex` the
cross product of `ey` and `ez` (the right-handed perpendicular
completion, perpendicular to both); its translation is the station's
global-position 3-vector. -/
theorem c2_cms_transform (wheel sector : Int) (dir pos : Vec3)
    (hw1 : -2 ≤ wheel) (hw2 : wheel ≤ 2) (hs1 : 1 ≤ sector) (hs2 : sector ≤ 14) :
    ∃ T, (setup_tranformer wheel sector dir pos).getTransform "Station" "CMS" = some T ∧
      T.rotation.ez = dir ∧
      T.rotation.ey = smul (face_orientation wheel sector : Int) ⟨0, 0, 1⟩ ∧
      T.rotation.ex = perpendicular_to_vectors T.rotation.ey T.rotation.ez ∧
      dot T.rotation.ex T.rotation.ey = 0 ∧
      dot T.rotation.ex T.rotation.ez = 0 ∧
      T.translation = pos := by
  exact ⟨_, rfl, rfl, rfl, rfl, dot_perp_left _ _, dot_perp_right _ _, rfl⟩

/-- Witness for `c2_cms_transform` at wheel -2, sector 1 with a concrete
direction and position. -/
theorem c2_cms_transform_witness :
    ∃ T, (setup_tranformer (-2) 1 ⟨1, 0, 0⟩ ⟨4, 5, 6⟩).getTransform "Station" "CMS"
        = some T ∧
      T.rotation.ez = ⟨1, 0, 0⟩ ∧
      T.rotation.ey = smul (face_orientation (-2) 1 : Int) ⟨0, 0, 1⟩ ∧
      T.rotation.ex = perpendicular_to_vectors T.rotation.ey T.rotation.ez ∧
      dot T.rotation.ex T.rotation.ey = 0 ∧
      dot T.rotation.ex T.rotation.ez = 0 ∧
      T.translation = ⟨4, 5, 6⟩ :=
  c2_cms_transform (-2) 1 ⟨1, 0, 0⟩ ⟨4, 5, 6⟩ (by decide) (by decide) (by decide) (by decide)

/-- C3: the two natural-view transforms registered at construction both use
the fixed z-axis (0,0,-1); the phi view's y column carries the
face-orientation sign on (0,-1,0) and its x column is derived by
perpendicularity, the eta view's x column carries the sign on (-1,0,0) and
its y column is derived by perpendicularity; both are registered with zero
translation. -/
theorem c3_natural_view_transforms (wheel sector : Int) (dir pos : Vec3)
    (hw1 : -2 ≤ wheel) (hw2 : wheel ≤ 2) (hs1 : 1 ≤ sector) (hs2 : sector ≤ 14) :
    (∃ T, (setup_tranformer wheel sector dir pos).getTransform "Station" "StationNvPhi"
        = some T ∧
      T.rotation.ez = ⟨0, 0, -1⟩ ∧
      T.rotation.ey = smul (face_orientation wheel sector : Int) ⟨0, -1, 0⟩ ∧
      T.rotation.ex = perpendicular_to_vectors T.rotation.ey T.rotation.ez ∧
      T.translation = ⟨0, 0, 0⟩) ∧
    (∃ T, (setup_tranformer wheel sector dir pos).getTransform "Station" "StationNvEta"
        = some T ∧
      T.rotation.ez = ⟨0, 0, -1⟩ ∧
      T.rotation.ex = smul (face_orientation wheel sector : Int) ⟨-1, 0, 0⟩ ∧
      T.rotation.ey = perpendicular_to_vectors T.rotation.ez T.rotation.ex ∧
      T.translation = ⟨0, 0, 0⟩) := by
  exact ⟨⟨_, rfl, rfl, rfl, rfl, rfl⟩, ⟨_, rfl, rfl, rfl, rfl, rfl⟩⟩

/-- Witness for `c3_natural_view_transforms` at wheel 2, sector 7 with a
concrete direction and position. -/
theorem c3_natural_view_transforms_witness :
    ∃ T, (setup_tranformer 2 7 ⟨0, 1, 0⟩ ⟨1, 1, 1⟩).getTransform "Station" "StationNvPhi"
        = some T ∧
      T.rotation.ez = ⟨0, 0, -1⟩ ∧
      T.rotation.ey = smul (face_orientation 2 7 : Int) ⟨0, -1, 0⟩ ∧
      T.rotation.ex = perpendicular_to_vectors T.rotation.ey T.rotation.ez ∧
      T.translation = ⟨0, 0, 0⟩ :=
  (c3_natural_view_transforms 2 7 ⟨0, 1, 0⟩ ⟨1, 1, 1⟩
    (by decide) (by decide) (by decide) (by decide)).1

/-- Exact orthonormality of a 3×3 matrix given by columns: the columns are
mutually perpendicular unit vectors. -/
def orthonormal (M : Mat3) : Prop :=
  dot M.ex M.ex = 1 ∧ dot M.ey M.ey = 1 ∧ dot M.ez M.ez = 1 ∧
  dot M.ex M.ey = 0 ∧ dot M.ex M.ez = 0 ∧ dot M.ey M.ez = 0

/-- Orthonormality within a tolerance: each column's squared norm is within
`tol` of 1 and each pairwise dot product is within `tol` of 0. -/
def orthonormalWithin (M : Mat3) (tol : ℚ) : Prop :=
  |dot M.ex M.ex - 1| ≤ tol ∧ |dot M.ey M.ey - 1| ≤ tol ∧ |dot M.ez M.ez - 1| ≤ tol ∧
  |dot M.ex M.ey| ≤ tol ∧ |dot M.ex M.ez| ≤ tol ∧ |dot M.ey M.ez| ≤ tol

/-- An exactly orthonormal matrix is orthonormal within any nonnegative
tolerance. -/
lemma orthonormal_within_of_orthonormal (M : Mat3) (tol : ℚ)
    (h : orthonormal M) (ht : 0 ≤ tol) : orthonormalWithin M tol := by
  obtain ⟨a, b, c, d, e, f⟩ := h
  refine ⟨?_, ?_, ?_, ?_, ?_, ?_⟩ <;> simp [a, b, c, d, e, f, ht]

/-- The face-orientation sign is always +1 or -1. -/
lemma face_orientation_eq_one_or (wheel sector : Int) :
    face_orientation wheel sector = 1 ∨ face_orientation wheel sector = -1 := by
  unfold face_orientation
  split
  · exact Or.inr rfl
  · split
    · exact Or.inl rfl
    · split
      · exact Or.inr rfl
      · exact Or.inl rfl

/-- The CMS rotation built from a sign `c` with `c * c = 1` and a unit
direction with zero z-component is exactly orthonormal. -/
lemma cms_rotation_orthonormal (c : ℚ) (dir : Vec3) (hc : c * c = 1)
    (hunit : dot dir dir = 1) (hz : dir.z = 0) :
    orthonormal ⟨perpendicular_to_vectors (smul c ⟨0, 0, 1⟩) dir,
      smul c ⟨0, 0, 1⟩, dir⟩ := by
  simp only [dot] at hunit
  unfold orthonormal
  refine ⟨?_, ?_, ?_, ?_, ?_, ?_⟩
  · simp only [dot, perpendicular_to_vectors, smul]
    linear_combination (dir.x * dir.x + dir.y * dir.y) * hc + hunit - dir.z * hz
  · simp only [dot, smul]
    linear_combination hc
  · simp only [dot]
    linear_combination hunit
  · simp only [dot, perpendicular_to_vectors, smul]
    ring
  · simp only [dot, perpendicular_to_vectors, smul]
    ring
  · simp only [dot, smul]
    linear_combination c * hz

/-- The phi natural-view rotation is exactly orthonormal for any sign `c`
with `c * c = 1`. -/
lemma nvphi_rotation_orthonormal (c : ℚ) (hc : c * c = 1) :
    orthonormal ⟨perpendicular_to_vectors (smul c ⟨0, -1, 0⟩) ⟨0, 0, -1⟩,
      smul c ⟨0, -1, 0⟩, ⟨0, 0, -1⟩⟩ := by
  unfold orthonormal
  refine ⟨?_, ?_, ?_, ?_, ?_, ?_⟩
  · simp only [dot, perpendicular_to_vectors, smul]
    linear_combination hc
  · simp only [dot, smul]
    linear_combination hc
  · norm_num [dot]
  · simp only [dot, perpendicular_to_vectors, smul]
    ring
  · simp only [dot, perpendicular_to_vectors, smul]
    ring
  · simp only [dot, smul]
    ring

/-- The eta natural-view rotation is exactly orthonormal for any sign `c`
with `c * c = 1`. -/
lemma nveta_rotation_orthonormal (c : ℚ) (hc : c * c = 1) :
    orthonormal ⟨smul c ⟨-1, 0, 0⟩,
      perpendicular_to_vectors ⟨0, 0, -1⟩ (smul c ⟨-1, 0, 0⟩), ⟨0, 0, -1⟩⟩ := by
  unfold orthonormal
  refine ⟨?_, ?_, ?_, ?_, ?_, ?_⟩
  · simp only [dot, smul]
    linear_combination hc
  · simp only [dot, perpendicular_to_vectors, smul]
    linear_combination hc
  · norm_num [dot]
  · simp only [dot, perpendicular_to_vectors, smul]
    ring
  · simp only [dot, smul]
    ring
  · simp only [dot, perpendicular_to_vectors, smul]
    ring

/-- C4 counterexample: with the unit geometry-source direction (0,0,1) the
registered CMS rotation is not orthonormal within tolerance 1e-9 (its x
column is the zero vector and its y and z columns coincide), so the claim
fails for an arbitrary geometry-source input. -/
theorem c4_counterexample :
    ∃ T, (setup_tranformer 1 1 ⟨0, 0, 1⟩ ⟨0, 0, 0⟩).getTransform "Station" "CMS"
        = some T ∧
      dot ⟨0, 0, 1⟩ ⟨0, 0, 1⟩ = 1 ∧
      ¬ orthonormalWithin T.rotation (1 / 1000000000) := by
  refine ⟨_, rfl, by norm_num [dot], ?_⟩
  intro h
  have h1 := h.1
  norm_num [dot, perpendicular_to_vectors, smul, face_orientation] at h1

/-- C4 (amended): the two natural-view rotations registered at
construction are orthonormal within tolerance 1e-9 for every
geometry-source input; the (Station, CMS) rotation is orthonormal within
tolerance 1e-9 provided the geometry-source direction is a unit vector
perpendicular to the global z-axis (as DT chamber normals are). -/
theorem c4_amended (wheel sector : Int) (dir pos : Vec3)
    (hw1 : -2 ≤ wheel) (hw2 : wheel ≤ 2) (hs1 : 1 ≤ sector) (hs2 : sector ≤ 14) :
    (∃ T, (setup_tranformer wheel sector dir pos).getTransform "Station" "StationNvPhi"
        = some T ∧ orthonormalWithin T.rotation (1 / 1000000000)) ∧
    (∃ T, (setup_tranformer wheel sector dir pos).getTransform "Station" "StationNvEta"
        = some T ∧ orthonormalWithin T.rotation (1 / 1000000000)) ∧
    (dot dir dir = 1 → dir.z = 0 →
      ∃ T, (setup_tranformer wheel sector dir pos).getTransform "Station" "CMS"
        = some T ∧ orthonormalWithin T.rotation (1 / 1000000000)) := by
  have hc : ((face_orientation wheel sector : Int) : ℚ) *
      ((face_orientation wheel sector : Int) : ℚ) = 1 := by
    obtain h | h := face_orientation_eq_one_or wheel sector <;>
      norm_num [h]
  refine ⟨⟨_, rfl, ?_⟩, ⟨_, rfl, ?_⟩, fun hunit hz => ⟨_, rfl, ?_⟩⟩
  · exact orthonormal_within_of_orthonormal _ _
      (nvphi_rotation_orthonormal _ hc) (by norm_num)
  · exact orthonormal_within_of_orthonormal _ _
      (nveta_rotation_orthonormal _ hc) (by norm_num)
  · exact orthonormal_within_of_orthonormal _ _
      (cms_rotation_orthonormal _ dir hc hunit hz) (by norm_num)

/-- Witness for `c4_amended` at wheel 0, sector 1, with the non-unit
direction (0,0,5) for the unconditional natural-view part, and the unit
direction (1,0,0), perpendicular to the z-axis, for the CMS part. -/
theorem c4_amended_witness :
    (∃ T, (setup_tranformer 0 1 ⟨0, 0, 5⟩ ⟨2, 0, 0⟩).getTransform "Station" "StationNvPhi"
        = some T ∧ orthonormalWithin T.rotation (1 / 1000000000)) ∧
    dot ⟨1, 0, 0⟩ ⟨1, 0, 0⟩ = 1 ∧
    (∃ T, (setup_tranformer 0 1 ⟨1, 0, 0⟩ ⟨2, 0, 0⟩).getTransform "Station" "CMS"
        = some T ∧ orthonormalWithin T.rotation (1 / 1000000000)) :=
  ⟨(c4_amended 0 1 ⟨0, 0, 5⟩ ⟨2, 0, 0⟩ (by decide) (by decide) (by decide) (by decide)).1,
    by norm_num [dot],
    (c4_amended 0 1 ⟨1, 0, 0⟩ ⟨2, 0, 0⟩ (by decide) (by decide) (by decide)
      (by decide)).2.2 (by norm_num [dot]) rfl⟩

/-- A drift cell, identified by its wire number; `attrs` models the
dynamically assigned attributes on the Python object (an ordered mapping
from attribute name to value, as in the object's `__dict__`). -/
structure DriftCell where
  number : Int
  attrs : List (String × Int)
deriving DecidableEq, Repr

/-- A layer: its number and the drift cells it owns. -/
structure Layer where
  number : Int
  cells : List DriftCell
deriving DecidableEq, Repr

/-- A super layer: its number and the layers it owns. -/
structure SuperLayer where
  number : Int
  layers : List Layer
deriving DecidableEq, Repr

/-- The data the geometry source supplies for one station: its normal
vector, its global position, and the sub-component tree enumerated from
the lookup table. -/
structure GeoInfo where
  direction : Vec3
  global_center : Vec3
  super_layers : List SuperLayer
deriving Repr

/-- A constructed station: validated coordinates, the transform manager
built by `setup_tranformer`, and the super-layer tree. -/
structure Station where
  wheel : Int
  sector : Int
  number : Int
  transformer : TransformManager
  super_layers : List SuperLayer
deriving DecidableEq, Repr

/-- Embedding of `Station.__init__` (`station.py:30-62`): the wheel, sector
and station setters validate their ranges in order (raising `ValueError`
for an out-of-range value) before any geometry lookup, transformer setup
or tree construction happens. -/
def Station.build (wheel sector station : Int) (geo : GeoInfo) :
    Except String Station :=
  if wheel < -2 ∨ wheel > 2 then
    Except.error "Wheel value must be between -2 and 2"
  else if sector < 1 ∨ sector > 14 then
    Except.error "Sector value must be between 1 and 14"
  else if station < 1 ∨ station > 4 then
    Except.error "Station value must be between 1 and 4"
  else
    Except.ok
      { wheel := wheel, sector := sector, number := station,
        transformer := setup_tranformer wheel sector geo.direction geo.global_center,
        super_layers := geo.super_layers }

/-- Embedding of `Station.name` (`station.py:87-94`). -/
def Station.name (st : Station) : String :=
  "Wheel " ++ toString st.wheel ++ ", Sector " ++ toString st.sector ++
    ", Station " ++ toString st.number

/-- Embedding of `Station.super_layer` (`station.py:106-115`):
`next((sl for sl in self._super_layers if sl.number == n), None)`, a
linear search returning the first match or `None`. -/
def Station.super_layer (st : Station) (n : Int) : Option SuperLayer :=
  st.super_layers.find? (fun sl => sl.number == n)

/-- Modelled from the spec: the `SuperLayer` class is not among the
analysed sources; per the spec, lookup of a layer by number within a super
layer is linear search over the children, returning None when the number
is absent. -/
def SuperLayer.layer (sl : SuperLayer) (n : Int) : Option Layer :=
  sl.layers.find? (fun L => L.number == n)

/-- Modelled from the spec: the `Layer` class is not among the analysed
sources; per the spec, lookup of a cell by wire number within a layer is
linear search over the children, returning None when the number is
absent. -/
def Layer.cell (L : Layer) (n : Int) : Option DriftCell :=
  L.cells.find? (fun c => c.number == n)

/-- C5: an out-of-range wheel, sector or station number makes construction
fail with a `ValueError` at field assignment; the error is the same for
every geometry-source input (no geometry lookup happens) and no Station
value exists. -/
theorem c5_invalid_config_rejected (wheel sector station : Int)
    (h : wheel < -2 ∨ wheel > 2 ∨ sector < 1 ∨ sector > 14 ∨
      station < 1 ∨ station > 4) :
    ∃ e, ∀ geo, Station.build wheel sector station geo = Except.error e := by
  by_cases h1 : wheel < -2 ∨ wheel > 2
  · exact ⟨"Wheel value must be between -2 and 2",
      fun geo => by simp [Station.build, h1]⟩
  · by_cases h2 : sector < 1 ∨ sector > 14
    · exact ⟨"Sector value must be between 1 and 14",
        fun geo => by simp [Station.build, h1, h2]⟩
    · by_cases h3 : station < 1 ∨ station > 4
      · exact ⟨"Station value must be between 1 and 4",
          fun geo => by simp [Station.build, h1, h2, h3]⟩
      · exfalso
        omega

/-- Witness for `c5_invalid_config_rejected` at the out-of-range wheel 3. -/
theorem c5_invalid_config_rejected_witness :
    ∃ e, ∀ geo, Station.build 3 1 1 geo = Except.error e :=
  c5_invalid_config_rejected 3 1 1 (by decide)

/-- Python truthiness of a popped identifier: `info_item.pop("sl", None)`
yields `None` when the key is absent, and the subsequent
`if not all([sl, l, w])` treats both `None` and the number 0 as missing. -/
def truthy : Option Int → Bool
  | none => false
  | some v => v != 0

/-- One normalized cell record: the three identifier keys (absent = the
Python `None` default of `pop`) and the remaining attribute key-value
pairs in iteration order. -/
structure CellRecord where
  sl : Option Int
  l : Option Int
  w : Option Int
  attrs : List (String × Int)
deriving DecidableEq, Repr

/-- Embedding of Python `setattr` on a cell's `__dict__`: overwrite the
value when the attribute name exists, append it otherwise. -/
def setattr : List (String × Int) → String → Int → List (String × Int)
  | [], k, v => [(k, v)]
  | (k', v') :: rest, k, v =>
    if k' == k then (k, v) :: rest else (k', v') :: setattr rest k v

/-- Apply a function to the first list element satisfying the predicate,
leaving everything else unchanged (in-place mutation of the object that a
linear search found). -/
def updateFirst {α : Type} (p : α → Bool) (f : α → α) : List α → List α
  | [] => []
  | x :: xs => if p x then f x :: xs else x :: updateFirst p f xs

/-- In-place mutation of the cell found by
`self.super_layer(sl).layer(l).cell(w)`: every attribute of the record is
assigned onto that cell. -/
def Station.updateCell (st : Station) (sl l w : Int)
    (attrs : List (String × Int)) : Station :=
  { st with
    super_layers :=
      updateFirst (fun S => S.number == sl)
        (fun S =>
          { S with
            layers :=
              updateFirst (fun L => L.number == l)
                (fun L =>
                  { L with
                    cells :=
                      updateFirst (fun c => c.number == w)
                        (fun c =>
                          { c with
                            attrs := attrs.foldl
                              (fun a kv => setattr a kv.1 kv.2) c.attrs })
                        L.cells })
                S.layers })
        st.super_layers }

/-- The warning text emitted at `station.py:261`. -/
def warn_message (sl : Int) (st : Station) : String :=
  "Super layer " ++ toString sl ++ " does not exist in station " ++
    st.name ++ "."

/-- The two ways the ingestion loop can abort: the explicit `ValueError`
for missing identifiers, and the unhandled Python `AttributeError` from
dereferencing a `None` lookup result. -/
inductive IngestError where
  | valueError (msg : String)
  | attributeError
deriving DecidableEq, Repr

/-- Embedding of the record loop of `Station.set_cell_attrs`
(`station.py:250-267`). The state threaded through is the station, the
warnings emitted so far, and — when the loop aborts — the raised error:
a record whose popped `sl`/`l`/`w` are not all truthy raises `ValueError`;
a missing super layer emits a warning and skips the record; a missing
layer makes `.cell` be called on `None` (`AttributeError`); a missing cell
makes `setattr` be called on `None`, which raises `AttributeError` at the
first attribute of the record (and goes unnoticed when the record has no
further attributes). -/
def process_cell_records :
    Station → List String → List CellRecord →
      Station × List String × Option IngestError
  | st, warns, [] => (st, warns, none)
  | st, warns, r :: rest =>
    if truthy r.sl && truthy r.l && truthy r.w then
      match st.super_layer (r.sl.getD 0) with
      | none => process_cell_records st (warns ++ [warn_message (r.sl.getD 0) st]) rest
      | some S =>
        match S.layer (r.l.getD 0) with
        | none => (st, warns, some IngestError.attributeError)
        | some L =>
          match L.cell (r.w.getD 0) with
          | none =>
            if r.attrs.isEmpty then process_cell_records st warns rest
            else (st, warns, some IngestError.attributeError)
          | some _ =>
            process_cell_records
              (st.updateCell (r.sl.getD 0) (r.l.getD 0) (r.w.getD 0) r.attrs)
              warns rest
    else
      (st, warns,
        some (IngestError.valueError
          "The drift cell information must contain the super layer, layer, and wire identifiers."))

/-- Embedding of `Station.set_cell_attrs` on an input already normalized to
a list of records (the list branch of the `isinstance` dispatch at
`station.py:239-248`). -/
def set_cell_attrs (st : Station) (info : List CellRecord) :
    Station × List String × Option IngestError :=
  process_cell_records st [] info

/-- A small concrete station used to instantiate the ingestion theorems:
super layer 1 holds layers 1 and 2, super layer 3 holds layer 1; each
layer holds cells 1 and 2 with no attributes yet. -/
def sampleStation : Station :=
  { wheel := -2, sector := 1, number := 2,
    transformer := TransformManager.start "Station",
    super_layers :=
      [⟨1, [⟨1, [⟨1, []⟩, ⟨2, []⟩]⟩, ⟨2, [⟨1, []⟩, ⟨2, []⟩]⟩]⟩,
       ⟨3, [⟨1, [⟨1, []⟩, ⟨2, []⟩]⟩]⟩] }

/-- A list whose elements all falsify the predicate has no `find?` hit. -/
lemma find?_eq_none_of_forall {α : Type} (p : α → Bool) (l : List α)
    (h : ∀ x ∈ l, p x = false) : l.find? p = none := by
  induction l with
  | nil => rfl
  | cons x xs ih =>
    have hx := h x (by simp)
    simp only [List.find?, hx]
    exact ih (fun y hy => h y (by simp [hy]))

/-- A successful `find?` returns a hit that is the first one: the elements
before it all falsify the predicate. -/
lemma find?_first {α : Type} (p : α → Bool) :
    ∀ (l : List α) (a : α), l.find? p = some a →
      p a = true ∧ ∃ pre post, l = pre ++ a :: post ∧ ∀ x ∈ pre, p x = false := by
  intro l
  induction l with
  | nil =>
    intro a h
    simp [List.find?] at h
  | cons x xs ih =>
    intro a h
    cases hx : p x with
    | true =>
      have hxa : x = a := by
        have := h
        simp only [List.find?, hx] at this
        exact Option.some.inj this
      subst hxa
      exact ⟨hx, [], xs, rfl, by simp⟩
    | false =>
      have h' : xs.find? p = some a := by
        have := h
        simp only [List.find?, hx] at this
        exact this
      obtain ⟨hpa, pre, post, heq, hpre⟩ := ih a h'
      refine ⟨hpa, x :: pre, post, by simp [heq], ?_⟩
      intro y hy
      rcases List.mem_cons.mp hy with hy | hy
      · rw [hy]
        exact hx
      · exact hpre y hy

/-- C8: `super_layer(n)` is a linear search over the station's super
layers: when no super layer has number `n` it returns the sentinel `none`
(it never raises), and when it returns a super layer that one has number
`n` and is the first such in the list. -/
theorem c8_super_layer_lookup (st : Station) (n : Int) :
    ((∀ sl ∈ st.super_layers, sl.number ≠ n) → st.super_layer n = none) ∧
    (∀ sl, st.super_layer n = some sl → sl.number = n ∧
      ∃ pre post, st.super_layers = pre ++ sl :: post ∧
        ∀ x ∈ pre, x.number ≠ n) := by
  constructor
  · intro h
    unfold Station.super_layer
    apply find?_eq_none_of_forall
    intro x hx
    simpa using h x hx
  · intro sl h
    obtain ⟨hp, pre, post, heq, hpre⟩ := find?_first _ _ _ h
    refine ⟨by simpa using hp, pre, post, heq, ?_⟩
    intro x hx
    simpa using hpre x hx

/-- Witness for `c8_super_layer_lookup`: the sample station has no super
layer numbered 2, and the lookup returns `none` there. -/
theorem c8_super_layer_lookup_witness :
    sampleStation.super_layer 2 = none :=
  (c8_super_layer_lookup sampleStation 2).1 (by decide)

/-- C6 counterexample: an ingestion call whose second record is missing the
`w` identifier still applies the first (well-formed) record before the
`ValueError` is raised, so a cell of the station has an attribute changed
by that very call — the claim's "no cell of the station has any attribute
changed by that call" fails. -/
theorem c6_counterexample :
    (set_cell_attrs sampleStation
      [⟨some 1, some 1, some 1, [("time", 10)]⟩, ⟨some 1, some 1, none, []⟩]).2.2
      = some (IngestError.valueError
        "The drift cell information must contain the super layer, layer, and wire identifiers.") ∧
    (set_cell_attrs sampleStation
      [⟨some 1, some 1, some 1, [("time", 10)]⟩, ⟨some 1, some 1, none, []⟩]).1
      ≠ sampleStation := by
  refine ⟨rfl, ?_⟩
  decide

/-- C6 (amended): when the record missing one of `sl`, `l`, `w` is reached,
the `ValueError` is raised immediately and the rest of the ingestion call
is aborted, with no cell mutated by the offending record or any later
record; in particular when the offending record comes first (e.g. a
single-record call) no cell of the station is mutated at all — but
records preceding the offending one have already been applied. -/
theorem c6_amended (st : Station) (warns : List String)
    (r : CellRecord) (rest : List CellRecord)
    (h : (truthy r.sl && truthy r.l && truthy r.w) = false) :
    process_cell_records st warns (r :: rest) =
      (st, warns,
        some (IngestError.valueError
          "The drift cell information must contain the super layer, layer, and wire identifiers.")) := by
  simp [process_cell_records, h]

/-- Witness for `c6_amended`: a single record with the `w` key absent
raises the `ValueError` and leaves the sample station untouched. -/
theorem c6_amended_witness :
    process_cell_records sampleStation [] [⟨some 1, some 1, none, []⟩] =
      (sampleStation, [],
        some (IngestError.valueError
          "The drift cell information must contain the super layer, layer, and wire identifiers.")) :=
  c6_amended sampleStation [] ⟨some 1, some 1, none, []⟩ [] (by decide)

/-- C7: a record whose super-layer number matches no super layer of the
station makes the loop emit the warning, skip the record, and continue
with the remaining records on the unchanged station — no cell is touched
by the skipped record. -/
theorem c7_missing_super_layer_skipped (st : Station) (warns : List String)
    (r : CellRecord) (rest : List CellRecord)
    (ht : (truthy r.sl && truthy r.l && truthy r.w) = true)
    (habs : ∀ sl ∈ st.super_layers, sl.number ≠ r.sl.getD 0) :
    process_cell_records st warns (r :: rest) =
      process_cell_records st (warns ++ [warn_message (r.sl.getD 0) st]) rest := by
  have hnone : st.super_layer (r.sl.getD 0) = none := by
    unfold Station.super_layer
    apply find?_eq_none_of_forall
    intro x hx
    simpa using habs x hx
  simp [process_cell_records, ht, hnone]

/-- Witness for `c7_missing_super_layer_skipped`: the record referencing
the absent super layer 99 yields exactly one warning, no error, and the
unchanged sample station. -/
theorem c7_missing_super_layer_skipped_witness :
    process_cell_records sampleStation [] [⟨some 99, some 1, some 1, [("time", 10)]⟩]
      = (sampleStation, [warn_message 99 sampleStation], none) := by
  have h := c7_missing_super_layer_skipped sampleStation []
    ⟨some 99, some 1, some 1, [("time", 10)]⟩ [] (by decide) (by decide)
  simpa using h

/-- C9: a record in which `sl`, `l` and `w` are all present but one of them
has the falsy value 0 is treated as if the identifier were missing: the
`ValueError` is raised and the call aborts at that record. -/
theorem c9_falsy_identifier_error (st : Station) (warns : List String)
    (r : CellRecord) (rest : List CellRecord)
    (hpresent : r.sl.isSome = true ∧ r.l.isSome = true ∧ r.w.isSome = true)
    (hfalsy : r.sl = some 0 ∨ r.l = some 0 ∨ r.w = some 0) :
    process_cell_records st warns (r :: rest) =
      (st, warns,
        some (IngestError.valueError
          "The drift cell information must contain the super layer, layer, and wire identifiers.")) := by
  have hb : (truthy r.sl && truthy r.l && truthy r.w) = false := by
    obtain h | h | h := hfalsy <;> simp [h, truthy]
  simp [process_cell_records, hb]

/-- Witness for `c9_falsy_identifier_error`: the record with all three
keys present but `l = 0` raises the `ValueError` on the sample station. -/
theorem c9_falsy_identifier_error_witness :
    process_cell_records sampleStation [] [⟨some 1, some 0, some 2, [("time", 10)]⟩] =
      (sampleStation, [],
        some (IngestError.valueError
          "The drift cell information must contain the super layer, layer, and wire identifiers.")) :=
  c9_falsy_identifier_error sampleStation [] ⟨some 1, some 0, some 2, [("time", 10)]⟩ []
    ⟨rfl, rfl, rfl⟩ (Or.inr (Or.inl rfl))

/-- C10 counterexample: a record whose super layer and layer both exist but
whose wire number 99 matches no cell, carrying no further attributes,
completes the call with no attribute error (and no warning) — `setattr`
is never reached — so the claim that every such record makes the call
fail is false. -/
theorem c10_counterexample :
    ((sampleStation.super_layer 1).bind (fun S => S.layer 1)).isSome = true ∧
    ((sampleStation.super_layer 1).bind (fun S => S.layer 1)).bind
      (fun L => L.cell 99) = none ∧
    process_cell_records sampleStation [] [⟨some 1, some 1, some 99, []⟩] =
      (sampleStation, [], none) := by
  refine ⟨rfl, rfl, rfl⟩

/-- C10 (amended): with the super layer present, a layer number matching no
layer always aborts the call with the unhandled `AttributeError` (the
`None` returned by the layer lookup is dereferenced without a guard); a
wire number matching no cell aborts with the `AttributeError` whenever
the record carries at least one attribute (with no attributes the
`setattr` on `None` is never executed and the record slips through
silently); the warning-and-skip path exists only for a missing super
layer. -/
theorem c10_amended (st : Station) (warns : List String)
    (r : CellRecord) (rest : List CellRecord)
    (ht : (truthy r.sl && truthy r.l && truthy r.w) = true)
    (S : SuperLayer) (hS : st.super_layer (r.sl.getD 0) = some S) :
    (S.layer (r.l.getD 0) = none →
      process_cell_records st warns (r :: rest) =
        (st, warns, some IngestError.attributeError)) ∧
    (∀ L, S.layer (r.l.getD 0) = some L → L.cell (r.w.getD 0) = none →
      r.attrs ≠ [] →
      process_cell_records st warns (r :: rest) =
        (st, warns, some IngestError.attributeError)) := by
  constructor
  · intro hL
    simp [process_cell_records, ht, hS, hL]
  · intro L hL hc hattrs
    have hne : r.attrs.isEmpty = false := by
      cases hr : r.attrs with
      | nil => exact absurd hr hattrs
      | cons a as => simp [hr]
    simp [process_cell_records, ht, hS, hL, hc, hne]

/-- Witness for `c10_amended`: the record referencing the absent layer 5 of
the existing super layer 1 aborts the call on the sample station with the
`AttributeError`. -/
theorem c10_amended_witness :
    process_cell_records sampleStation [] [⟨some 1, some 5, some 1, [("time", 10)]⟩] =
      (sampleStation, [], some IngestError.attributeError) :=
  (c10_amended sampleStation [] ⟨some 1, some 5, some 1, [("time", 10)]⟩ []
    (by decide) _ rfl).1 rfl

end MplDTs
